import Mathlib

/-!
Verification of the core transform logic of the report-viewer app (src/app.py):
loading/validation of the required columns, the filled-cell predicate and
per-category aggregation, the filter engine, the rendered sections, and the
spreadsheet export. Tables are modelled as lists of rows of optional strings
(`none` is a missing value, pandas NaN, since the file is read with dtype=str).
-/

namespace App

/-- A cell of the loaded table: `none` models a missing value (pandas `NaN`),
`some s` a string cell (the file is read with `dtype=str`). -/
abbrev Cell := Option String

/-- A dataframe of string cells: named columns and rows of cells. -/
structure DataFrame where
  cols : List String
  rows : List (List Cell)
  deriving DecidableEq, Repr

/-- Cell access `row[c]`: index the row by the position of column `c` in the column list
(pandas column lookup); out-of-range or absent column yields a missing value. -/
def lookupCell (cols : List String) (r : List Cell) (c : String) : Cell :=
  match cols.indexOf? c with
  | some i => (r[i]?).join
  | none => none

/-- Python `str(x)` for a cell: a missing value (float NaN) prints as `"nan"`. -/
def strOfCell : Cell → String
  | none => "nan"
  | some s => s

/-- The whitespace characters stripped by Python `str.strip()` (the ASCII
ones: space, tab, newline, carriage return, vertical tab, form feed). -/
def isSpace (c : Char) : Bool :=
  c = ' ' || c = '\t' || c = '\n' || c = '\r' || c = '\x0b' || c = '\x0c'

/-- Python `s.strip()`: remove leading and trailing whitespace. -/
def pyStrip (s : String) : String :=
  String.mk (((s.data.dropWhile isSpace).reverse.dropWhile isSpace).reverse)

/-- The not-filled markers used throughout app.py. -/
def vazios : List String := ["", "nan", "None"]

/-- The lambda of `count_filled` (app.py line 68):
`str(x).strip() not in ["", "nan", "None"]`. -/
def filled (c : Cell) : Bool := !(vazios.contains (pyStrip (strOfCell c)))

/-- Embedding of `count_filled(series)`: number of cells of the series that satisfy `filled`. -/
def count_filled (s : List Cell) : Nat := (s.filter filled).length

/-- Column access `df[c]` as a list of cells, one per row. -/
def column (df : DataFrame) (c : String) : List Cell :=
  df.rows.map (fun r => lookupCell df.cols r c)

/-- Normalization of one cell for display, app.py line 62:
`df.fillna("").replace("nan", "")` (NaN becomes `""`, a cell exactly `"nan"`
becomes `""`, all other cells are unchanged). -/
def normCell : Cell → String
  | none => ""
  | some s => if s = "nan" then "" else s

/-- A normalized cell, as a `Cell` (always a present string). -/
def normCellO (c : Cell) : Cell := some (normCell c)

/-- Embedding of `df_exibicao = df.fillna("").replace("nan", "")` (app.py line 62). -/
def df_exibicao (df : DataFrame) : DataFrame :=
  ⟨df.cols, df.rows.map (fun r => r.map normCellO)⟩

/-- Embedding of `colunas_necessarias` (app.py lines 45-52). -/
def colunas_necessarias : List String :=
  ["ENCONTRADAS", "NÃO ENCONTRADAS", "REVOGADAS", "MOTIVO DA REVOGAÇÃO",
   "ATUALIZADAS", "OUTRAS SITUAÇÕES"]

/-- Embedding of `colunas_faltantes` (app.py line 54): the required columns
absent from `df.columns`, in order. -/
def colunas_faltantes (df : DataFrame) : List String :=
  colunas_necessarias.filter (fun c => !(df.cols.contains c))

/-- Embedding of `totais` (app.py lines 72-75): for each required column except
`MOTIVO DA REVOGAÇÃO`, the pair (column, `count_filled(df[col])`), in order. -/
def totais (df : DataFrame) : List (String × Nat) :=
  (colunas_necessarias.filter (fun c => c ≠ "MOTIVO DA REVOGAÇÃO")).map
    (fun c => (c, count_filled (column df c)))

/-- Embedding of `totais.get(filtro, 0)` (app.py line 102). -/
def totais_get (df : DataFrame) (c : String) : Nat :=
  ((totais df).lookup c).getD 0

/-- The options of the filter selectbox (app.py line 81). -/
def filtro_options : List String :=
  ["Todos", "ENCONTRADAS", "NÃO ENCONTRADAS", "REVOGADAS", "ATUALIZADAS",
   "OUTRAS SITUAÇÕES"]

/-- Embedding of `total_geral` (app.py lines 99-102): sum of all counts for "Todos",
otherwise the count of the selected category. -/
def total_geral (df : DataFrame) (filtro : String) : Nat :=
  if filtro = "Todos" then ((totais df).map Prod.snd).sum
  else totais_get df filtro

/-- Embedding of `colunas_tabela` (app.py lines 86-94). -/
def colunas_tabela (df : DataFrame) (filtro : String) : List String :=
  if filtro = "Todos" then df.cols
  else if filtro = "REVOGADAS" then ["REVOGADAS", "MOTIVO DA REVOGAÇÃO"]
  else [filtro]

/-- Embedding of `df_filtrado` (app.py lines 362-364): the rows of `df_exibicao` whose cell
in the selected column passes the filled predicate. -/
def df_filtrado (df : DataFrame) (filtro : String) : DataFrame :=
  ⟨df.cols, (df_exibicao df).rows.filter (fun r => filled (lookupCell df.cols r filtro))⟩

/-- Column restriction `d[cs]` of a dataframe to a list of columns. -/
def selectCols (d : DataFrame) (cs : List String) : DataFrame :=
  ⟨cs, d.rows.map (fun r => cs.map (fun c => lookupCell d.cols r c))⟩

/-- Embedding of `revogadas_filtradas` (app.py lines 292-294): the rows of `df_exibicao`
whose REVOGADAS cell is filled. -/
def revogadas_filtradas (df : DataFrame) : List (List Cell) :=
  (df_exibicao df).rows.filter (fun r => filled (lookupCell df.cols r "REVOGADAS"))

/-- Embedding of `total_revogadas = len(revogadas_filtradas)` (app.py line 340). -/
def total_revogadas (df : DataFrame) : Nat := (revogadas_filtradas df).length

/-- Embedding of `com_motivo` (app.py lines 341-343): among the revoked rows, those whose
reason cell is filled. -/
def com_motivo (df : DataFrame) : Nat :=
  ((revogadas_filtradas df).filter
    (fun r => filled (lookupCell df.cols r "MOTIVO DA REVOGAÇÃO"))).length

/-- Embedding of `sem_motivo = total_revogadas - com_motivo` (app.py line 344). -/
def sem_motivo (df : DataFrame) : Nat := total_revogadas df - com_motivo df

/-- One item of the rendered page: messages (`st.warning` / `st.info`), the
donut charts, the per-category expander sections, and the data table. -/
inductive RenderItem where
  | warning (msg : String)
  | info (msg : String)
  | chartAll (slices : List (String × Nat))
  | chartSingle (name : String) (value : Int) (rest : Int)
  | detail (category : String) (total : Nat)
  | detailRev (total : Nat) (comMotivo : Nat) (semMotivo : Nat)
  | table (data : DataFrame)
  deriving DecidableEq, Repr

/-- The chart block (app.py lines 125-162). For "Todos" the slices are the
categories with nonzero count; for a specific category the two slices are the
count and `max(0, len(df) - quantidade)` (Python ints, hence `Int`). -/
def chart_section (df : DataFrame) (filtro : String) : RenderItem :=
  if 0 < total_geral df filtro then
    if filtro = "Todos" then
      if ((totais df).filter (fun p => 0 < p.2)).isEmpty then
        .warning "Não há dados para exibir no gráfico."
      else .chartAll ((totais df).filter (fun p => 0 < p.2))
    else
      let quantidade := totais_get df filtro
      if 0 < quantidade then
        .chartSingle filtro (quantidade : Int)
          (max 0 ((df.rows.length : Int) - (quantidade : Int)))
      else .info ("Não há registros na categoria \x27" ++ filtro ++ "\x27.")
  else .warning "Não há dados para exibir com os filtros atuais."

/-- The rows listed by a category container: rows of `df_exibicao` whose cell
in the column of the category is filled (app.py lines 167-170 and analogues). -/
def category_rows (df : DataFrame) (cat : String) : List (List Cell) :=
  (df_exibicao df).rows.filter (fun r => filled (lookupCell df.cols r cat))

/-- One category container (app.py lines 167-352): rendered only when the
filter selects the category (or is "Todos") and the category count is nonzero
and the filtered rows are nonempty; otherwise nothing is emitted. The
REVOGADAS container additionally carries the com/sem motivo split. -/
def detail_section (df : DataFrame) (filtro cat : String) : Option RenderItem :=
  if (filtro = cat ∨ filtro = "Todos") ∧ 0 < totais_get df cat then
    let rs := category_rows df cat
    if rs.isEmpty then none
    else if cat = "REVOGADAS" then
      some (.detailRev rs.length (com_motivo df) (sem_motivo df))
    else some (.detail cat rs.length)
  else none

/-- The source order of the category containers (app.py lines 167-352). -/
def detail_order : List String :=
  ["ENCONTRADAS", "NÃO ENCONTRADAS", "ATUALIZADAS", "OUTRAS SITUAÇÕES",
   "REVOGADAS"]

/-- All category containers actually rendered, in order. -/
def detail_sections (df : DataFrame) (filtro : String) : List RenderItem :=
  (detail_order.map (detail_section df filtro)).reduceOption

/-- The final data table block (app.py lines 357-370). -/
def table_section (df : DataFrame) (filtro : String) : RenderItem :=
  if filtro = "Todos" then .table (df_exibicao df)
  else if (df_filtrado df filtro).rows.isEmpty then
    .info ("Nenhum registro encontrado com dados em \x27" ++ filtro ++ "\x27")
  else .table (selectCols (df_filtrado df filtro) (colunas_tabela df filtro))

/-- The rendered page body: chart, category containers, data table. -/
def render (df : DataFrame) (filtro : String) : List RenderItem :=
  chart_section df filtro :: (detail_sections df filtro ++ [table_section df filtro])

/-- Whether a render item is a message (`st.info` or `st.warning`). -/
def isMessage : RenderItem → Bool
  | .info _ => true
  | .warning _ => true
  | _ => false

/-- Embedding of `dados_exportar` (app.py lines 379-383): the full normalized table for
"Todos"; for a specific filter, the filtered rows restricted to the display
columns when nonempty, otherwise the whole normalized table restricted to
those columns. -/
def dados_exportar (df : DataFrame) (filtro : String) : DataFrame :=
  if filtro = "Todos" then df_exibicao df
  else if (df_filtrado df filtro).rows.isEmpty then
    selectCols (df_exibicao df) (colunas_tabela df filtro)
  else selectCols (df_filtrado df filtro) (colunas_tabela df filtro)

/-- The metrics sheet (app.py lines 390-393): total row count of the file, the
selected filter name, and the row count of the exported sheet. -/
structure Metricas where
  totalRegistros : Nat
  categoriaFiltrada : String
  registrosNoFiltro : Nat
  deriving DecidableEq, Repr

/-- Embedding of `metricas_df` (app.py lines 390-393). -/
def metricas_df (df : DataFrame) (filtro : String) : Metricas :=
  ⟨df.rows.length, filtro, (dados_exportar df filtro).rows.length⟩

/-- Python `str.lower` restricted to the characters that occur in the filter
names: ASCII `A`-`Z` and the Latin-1 uppercase letters (U+00C0-U+00DE except
the multiplication sign U+00D7) map 32 code points up; everything else is
unchanged. -/
def pyLowerChar (c : Char) : Char :=
  if 65 ≤ c.toNat ∧ c.toNat ≤ 90 then Char.ofNat (c.toNat + 32)
  else if 192 ≤ c.toNat ∧ c.toNat ≤ 222 ∧ c.toNat ≠ 215 then Char.ofNat (c.toNat + 32)
  else c

/-- Python `s.lower()` over the relevant alphabet. -/
def pyLower (s : String) : String := String.mk (s.data.map pyLowerChar)

/-- Python `s.replace(' ', '_')`. -/
def underscoreSpaces (s : String) : String :=
  String.mk (s.data.map (fun c => if c = ' ' then '_' else c))

/-- The download file name (app.py line 401):
the literal prefix, then the lower-cased filter with spaces replaced by
underscores, then the xlsx suffix (an f-string in the source). -/
def export_filename (filtro : String) : String :=
  "dados_processados_" ++ underscoreSpaces (pyLower filtro) ++ ".xlsx"

/-- The download MIME type (app.py line 402). -/
def export_mime : String :=
  "application/vnd.openxmlformats-officedocument.spreadsheetml.sheet"

/-- The exported spreadsheet together with the download metadata
(app.py lines 385-404). -/
structure ExportFile where
  dataSheetName : String
  dadosFiltrados : DataFrame
  metricsSheetName : String
  metricas : Metricas
  fileName : String
  mime : String
  deriving DecidableEq, Repr

/-- The export block (app.py lines 385-404). -/
def export_file (df : DataFrame) (filtro : String) : ExportFile :=
  ⟨"Dados Filtrados", dados_exportar df filtro, "Métricas", metricas_df df filtro,
   export_filename filtro, export_mime⟩

/-- A table is valid when every required column is present. -/
def valid (df : DataFrame) : Prop := colunas_faltantes df = []

instance (df : DataFrame) : Decidable (valid df) := by
  unfold valid
  exact inferInstance

/-- Result of one render pass: either the missing-columns error (with the list
of available columns) after which processing stops (app.py lines 54-59), or
the rendered report and its export. -/
inductive PipelineResult where
  | missingColumns (missing : List String) (available : List String)
  | report (items : List RenderItem) (xlsx : ExportFile)
  deriving DecidableEq, Repr

/-- One full render pass over a loaded table (app.py lines 44-404): validate
the columns, stopping with the error when some are missing; otherwise
aggregate, render and export. -/
def run_dashboard (df : DataFrame) (filtro : String) : PipelineResult :=
  match colunas_faltantes df with
  | [] => .report (render df filtro) (export_file df filtro)
  | ms => .missingColumns ms df.cols

/-! ## Helper lemmas -/

/-- Display normalization never changes whether a cell counts as filled:
NaN and the literal `"nan"` become `""`, which is equally not-filled, and all
other cells are unchanged. -/
theorem filled_normCellO (x : Cell) : filled (normCellO x) = filled x := by
  cases x with
  | none => rfl
  | some s =>
      by_cases h : s = "nan"
      · subst h; rfl
      · simp [normCellO, normCell, h]

/-- Normalizing a row does not change which of its cells count as filled. -/
theorem filled_lookup_norm (cols : List String) (r : List Cell) (c : String) :
    filled (lookupCell cols (r.map normCellO) c) = filled (lookupCell cols r c) := by
  unfold lookupCell
  cases h : cols.indexOf? c with
  | none => rfl
  | some i =>
      show filled (((r.map normCellO)[i]?).join) = filled ((r[i]?).join)
      rw [List.getElem?_map]
      cases hr : r[i]? with
      | none => rfl
      | some x => exact filled_normCellO x

/-- The rows of `df_exibicao` are the normalized rows of `df`. -/
theorem df_exibicao_rows (df : DataFrame) :
    (df_exibicao df).rows = df.rows.map (fun r => r.map normCellO) := rfl

/-- The number of rows of the filtered display table equals `count_filled` of
the selected column of the raw table. -/
theorem df_filtrado_length (df : DataFrame) (f : String) :
    (df_filtrado df f).rows.length = count_filled (column df f) := by
  show ((df.rows.map (fun r => r.map normCellO)).filter
      (fun r => filled (lookupCell df.cols r f))).length
    = ((df.rows.map (fun r => lookupCell df.cols r f)).filter filled).length
  rw [List.filter_map, List.filter_map, List.length_map, List.length_map]
  apply congrArg
  apply List.filter_congr
  intro r _
  exact filled_lookup_norm df.cols r f

/-- A filled-cell count never exceeds the number of cells. -/
theorem count_filled_le_length (s : List Cell) : count_filled s ≤ s.length :=
  List.length_filter_le _ _

/-- A column has one cell per row. -/
theorem column_length (df : DataFrame) (c : String) :
    (column df c).length = df.rows.length := List.length_map _ _

/-- Expansion of `totais`: the five count-bearing categories in order, each
with the filled-cell count of its bound column. -/
theorem totais_eq (df : DataFrame) :
    totais df = [("ENCONTRADAS", count_filled (column df "ENCONTRADAS")),
      ("NÃO ENCONTRADAS", count_filled (column df "NÃO ENCONTRADAS")),
      ("REVOGADAS", count_filled (column df "REVOGADAS")),
      ("ATUALIZADAS", count_filled (column df "ATUALIZADAS")),
      ("OUTRAS SITUAÇÕES", count_filled (column df "OUTRAS SITUAÇÕES"))] := rfl

/-- For each of the five count-bearing categories, the dictionary lookup
`totais.get(c, 0)` is the filled-cell count of the bound column. -/
theorem totais_get_eq (df : DataFrame) (c : String) (hc : c ∈ detail_order) :
    totais_get df c = count_filled (column df c) := by
  fin_cases hc <;> rfl

/-! ## Sample tables -/

/-- A sample valid table: three rows; ENCONTRADAS filled in rows 1 and 3,
REVOGADAS filled in rows 2 and 3, the reason present only in row 2. -/
def dfA : DataFrame :=
  ⟨colunas_necessarias,
   [[some "lei 1", none, none, none, none, none],
    [none, none, some "lei 2", some "superada", none, none],
    [some "lei 3", none, some "lei 3", some " nan ", none, none]]⟩

/-- A valid table with a single row that is blank in every category column. -/
def dfB : DataFrame :=
  ⟨colunas_necessarias, [[none, none, none, none, none, none]]⟩

/-- A valid table with one row filled both in ENCONTRADAS and in REVOGADAS. -/
def dfC : DataFrame :=
  ⟨colunas_necessarias, [[some "lei 1", none, some "lei 1", none, none, none]]⟩

/-- A table missing five of the six required columns. -/
def dfD : DataFrame :=
  ⟨["REVOGADAS", "EXTRA"], [[some "lei 1", some "x"]]⟩

/-- A valid table with one row, filled only in ENCONTRADAS. -/
def dfE : DataFrame :=
  ⟨colunas_necessarias, [[some "lei 1", none, none, none, none, none]]⟩

/-! ## The claims -/

/-- C2: for every valid table and every specific (non-"Todos") category
filter, the number of rows of the normalized display table whose cell in the
selected column passes the filled predicate equals the `count_filled`
aggregate of that category computed on the raw table. -/
theorem C2_filter_count (df : DataFrame) (f : String) (hv : valid df)
    (hf : f ∈ filtro_options) (hne : f ≠ "Todos") :
    (df_filtrado df f).rows.length = count_filled (column df f) :=
  df_filtrado_length df f

theorem C2_filter_count_witness :
    valid dfA ∧ "REVOGADAS" ∈ filtro_options ∧ "REVOGADAS" ≠ "Todos" ∧
    (df_filtrado dfA "REVOGADAS").rows.length = count_filled (column dfA "REVOGADAS") :=
  ⟨by decide, by decide, by decide,
   C2_filter_count dfA "REVOGADAS" (by decide) (by decide) (by decide)⟩

/-- C3: a cell is counted as not-filled exactly when its string form, after
stripping surrounding whitespace, is `""`, `"nan"` or `"None"`; the per-column
aggregate is the number of rows whose cell in that column is filled; and
`totais` consists of exactly the five count-bearing categories (all required
columns except MOTIVO DA REVOGAÇÃO), in order, with those counts. -/
theorem C3_blank_predicate (df : DataFrame) (c : Cell) :
    (filled c = false ↔
      (pyStrip (strOfCell c) = "" ∨ pyStrip (strOfCell c) = "nan" ∨
        pyStrip (strOfCell c) = "None")) ∧
    (∀ cat, count_filled (column df cat) =
      (df.rows.filter (fun r => filled (lookupCell df.cols r cat))).length) ∧
    totais df = [("ENCONTRADAS", count_filled (column df "ENCONTRADAS")),
      ("NÃO ENCONTRADAS", count_filled (column df "NÃO ENCONTRADAS")),
      ("REVOGADAS", count_filled (column df "REVOGADAS")),
      ("ATUALIZADAS", count_filled (column df "ATUALIZADAS")),
      ("OUTRAS SITUAÇÕES", count_filled (column df "OUTRAS SITUAÇÕES"))] := by
  refine ⟨?_, ?_, totais_eq df⟩
  · simp only [filled, vazios]
    simp [List.contains]
    tauto
  · intro cat
    show ((df.rows.map (fun r => lookupCell df.cols r cat)).filter filled).length = _
    rw [List.filter_map, List.length_map]
    rfl

/-- C5: for every valid table, the "Total Filtrado" metric displayed for the
filter "Todos" is the sum of the five per-category aggregate counts. -/
theorem C5_total_todos (df : DataFrame) (hv : valid df) :
    total_geral df "Todos" =
      count_filled (column df "ENCONTRADAS") +
      count_filled (column df "NÃO ENCONTRADAS") +
      count_filled (column df "REVOGADAS") +
      count_filled (column df "ATUALIZADAS") +
      count_filled (column df "OUTRAS SITUAÇÕES") := by
  show ((totais df).map Prod.snd).sum = _
  rw [totais_eq]
  simp
  omega

theorem C5_total_todos_witness :
    valid dfA ∧
    total_geral dfA "Todos" =
      count_filled (column dfA "ENCONTRADAS") +
      count_filled (column dfA "NÃO ENCONTRADAS") +
      count_filled (column dfA "REVOGADAS") +
      count_filled (column dfA "ATUALIZADAS") +
      count_filled (column dfA "OUTRAS SITUAÇÕES") :=
  ⟨by decide, C5_total_todos dfA (by decide)⟩

/-- C6: for every valid table, the revoked-detail counters satisfy
com_motivo + sem_motivo = total revoked rows, where the total is the number of
rows whose REVOGADAS cell is filled. -/
theorem C6_revogadas_split (df : DataFrame) (hv : valid df) :
    com_motivo df + sem_motivo df = total_revogadas df ∧
    total_revogadas df = count_filled (column df "REVOGADAS") := by
  constructor
  · have h : com_motivo df ≤ total_revogadas df := List.length_filter_le _ _
    unfold sem_motivo
    omega
  · exact df_filtrado_length df "REVOGADAS"

theorem C6_revogadas_split_witness :
    valid dfA ∧
    (com_motivo dfA + sem_motivo dfA = total_revogadas dfA ∧
      total_revogadas dfA = count_filled (column dfA "REVOGADAS")) :=
  ⟨by decide, C6_revogadas_split dfA (by decide)⟩

/-- C9: for every selected filter, the download file name is exactly
`dados_processados_` ++ (the filter name lower-cased with spaces replaced by
underscores) ++ `.xlsx`, and the MIME type is the xlsx MIME type; evaluated on
all six filter options. -/
theorem C9_filename_mime :
    (∀ df f, (export_file df f).fileName = export_filename f ∧
      (export_file df f).mime = export_mime) ∧
    export_filename "Todos" = "dados_processados_todos.xlsx" ∧
    export_filename "ENCONTRADAS" = "dados_processados_encontradas.xlsx" ∧
    export_filename "NÃO ENCONTRADAS" = "dados_processados_não_encontradas.xlsx" ∧
    export_filename "REVOGADAS" = "dados_processados_revogadas.xlsx" ∧
    export_filename "ATUALIZADAS" = "dados_processados_atualizadas.xlsx" ∧
    export_filename "OUTRAS SITUAÇÕES" = "dados_processados_outras_situações.xlsx" ∧
    export_mime = "application/vnd.openxmlformats-officedocument.spreadsheetml.sheet" :=
  ⟨fun _ _ => ⟨rfl, rfl⟩, by decide, by decide, by decide, by decide, by decide,
   by decide, rfl⟩

/-- C4: for every table missing at least one required column, the render pass
stops with the missing-columns error, which names exactly the missing required
columns and lists exactly the columns present in the table; no report (and so
no aggregation, filtering or export) is produced. -/
theorem C4_missing_columns (df : DataFrame) (filtro : String)
    (h : ∃ c ∈ colunas_necessarias, ¬ c ∈ df.cols) :
    run_dashboard df filtro = .missingColumns (colunas_faltantes df) df.cols ∧
    (∀ c, c ∈ colunas_faltantes df ↔ (c ∈ colunas_necessarias ∧ ¬ c ∈ df.cols)) := by
  have hmem : ∀ c, c ∈ colunas_faltantes df ↔ (c ∈ colunas_necessarias ∧ ¬ c ∈ df.cols) := by
    intro c
    unfold colunas_faltantes
    rw [List.mem_filter]
    simp
  have hne : colunas_faltantes df ≠ [] := by
    obtain ⟨c, hc, hnc⟩ := h
    intro h0
    have hcm : c ∈ colunas_faltantes df := (hmem c).mpr ⟨hc, hnc⟩
    rw [h0] at hcm
    exact absurd hcm (List.not_mem_nil c)
  refine ⟨?_, hmem⟩
  unfold run_dashboard
  cases hm : colunas_faltantes df with
  | nil => exact absurd hm hne
  | cons a l => rfl

theorem C4_missing_columns_witness :
    (∃ c ∈ colunas_necessarias, ¬ c ∈ dfD.cols) ∧
    (run_dashboard dfD "Todos" = .missingColumns (colunas_faltantes dfD) dfD.cols ∧
      ∀ c, c ∈ colunas_faltantes dfD ↔ (c ∈ colunas_necessarias ∧ ¬ c ∈ dfD.cols)) :=
  ⟨⟨"ENCONTRADAS", by decide, by decide⟩,
   C4_missing_columns dfD "Todos" ⟨"ENCONTRADAS", by decide, by decide⟩⟩

/-- C7: for every valid table and every specific category filter other than
REVOGADAS and "Todos", when the category count is nonzero the chart is the
two-slice split of count against total rows minus count, and the table is the
filtered rows restricted to that one column. -/
theorem C7_specific_chart_table (df : DataFrame) (f : String) (hv : valid df)
    (hf : f ∈ (["ENCONTRADAS", "NÃO ENCONTRADAS", "ATUALIZADAS",
      "OUTRAS SITUAÇÕES"] : List String))
    (hq : 0 < totais_get df f) :
    chart_section df f =
      .chartSingle f (totais_get df f)
        ((df.rows.length : Int) - (totais_get df f : Int)) ∧
    table_section df f = .table (selectCols (df_filtrado df f) [f]) ∧
    (selectCols (df_filtrado df f) [f]).rows =
      (df_filtrado df f).rows.map (fun r => [lookupCell df.cols r f]) := by
  have hfd : f ∈ detail_order := by fin_cases hf <;> decide
  have hcount : totais_get df f = count_filled (column df f) := totais_get_eq df f hfd
  have hne_todos : f ≠ "Todos" := by fin_cases hf <;> decide
  have hne_rev : f ≠ "REVOGADAS" := by fin_cases hf <;> decide
  have htg : total_geral df f = totais_get df f := by
    unfold total_geral
    rw [if_neg hne_todos]
  have hle : totais_get df f ≤ df.rows.length := by
    rw [hcount]
    calc count_filled (column df f) ≤ (column df f).length := count_filled_le_length _
      _ = df.rows.length := column_length df f
  refine ⟨?_, ?_, rfl⟩
  · unfold chart_section
    rw [htg, if_pos hq, if_neg hne_todos, if_pos hq]
    have hmax : max 0 ((df.rows.length : Int) - (totais_get df f : Int)) =
        (df.rows.length : Int) - (totais_get df f : Int) := by omega
    rw [hmax]
  · have hlen : 0 < (df_filtrado df f).rows.length := by
      rw [df_filtrado_length df f, ← hcount]
      exact hq
    have hfe : ¬ ((df_filtrado df f).rows.isEmpty = true) := by
      cases hemp : (df_filtrado df f).rows with
      | nil => rw [hemp] at hlen; simp at hlen
      | cons a l => simp
    unfold table_section
    rw [if_neg hne_todos, if_neg hfe]
    unfold colunas_tabela
    rw [if_neg hne_todos, if_neg hne_rev]

theorem C7_specific_chart_table_witness :
    valid dfA ∧
    "ENCONTRADAS" ∈ (["ENCONTRADAS", "NÃO ENCONTRADAS", "ATUALIZADAS",
      "OUTRAS SITUAÇÕES"] : List String) ∧
    0 < totais_get dfA "ENCONTRADAS" ∧
    (chart_section dfA "ENCONTRADAS" =
        .chartSingle "ENCONTRADAS" (totais_get dfA "ENCONTRADAS")
          ((dfA.rows.length : Int) - (totais_get dfA "ENCONTRADAS" : Int)) ∧
      table_section dfA "ENCONTRADAS" =
        .table (selectCols (df_filtrado dfA "ENCONTRADAS") ["ENCONTRADAS"]) ∧
      (selectCols (df_filtrado dfA "ENCONTRADAS") ["ENCONTRADAS"]).rows =
        (df_filtrado dfA "ENCONTRADAS").rows.map
          (fun r => [lookupCell dfA.cols r "ENCONTRADAS"])) :=
  ⟨by decide, by decide, by decide,
   C7_specific_chart_table dfA "ENCONTRADAS" (by decide) (by decide) (by decide)⟩

/-- C1 counterexample: on a valid one-row table whose every category cell is
blank, with filter ENCONTRADAS, the displayed filtered view is empty (the
table area shows an info message), yet the exported data sheet contains one
row (the whole normalized table restricted to the ENCONTRADAS column): the
exported sheet does not equal the displayed empty filtered view. -/
theorem C1_counterexample :
    valid dfB ∧
    (df_filtrado dfB "ENCONTRADAS").rows = [] ∧
    table_section dfB "ENCONTRADAS" =
      .info "Nenhum registro encontrado com dados em \x27ENCONTRADAS\x27" ∧
    (export_file dfB "ENCONTRADAS").dadosFiltrados.rows = [[some ""]] ∧
    (export_file dfB "ENCONTRADAS").metricas.registrosNoFiltro = 1 := by decide

/-- C1 (amended): the export carries the sheet "Dados Filtrados" and the
metrics triple of total row count of the file, selected filter name, and row
count of the exported sheet. For "Todos" and for a specific filter with nonempty filtered
rows, the exported sheet equals the displayed table; when the filtered row
set of a specific filter is empty, the exported sheet instead falls back to
the whole normalized table restricted to the display columns of the filter. -/
theorem C1_export_amended (df : DataFrame) (f : String) (hv : valid df)
    (hf : f ∈ filtro_options) :
    (export_file df f).dataSheetName = "Dados Filtrados" ∧
    (export_file df f).dadosFiltrados = dados_exportar df f ∧
    (export_file df f).metricas =
      ⟨df.rows.length, f, (dados_exportar df f).rows.length⟩ ∧
    (f = "Todos" →
      dados_exportar df f = df_exibicao df ∧
      table_section df f = .table (df_exibicao df)) ∧
    (f ≠ "Todos" → (df_filtrado df f).rows ≠ [] →
      dados_exportar df f = selectCols (df_filtrado df f) (colunas_tabela df f) ∧
      table_section df f = .table (dados_exportar df f)) ∧
    (f ≠ "Todos" → (df_filtrado df f).rows = [] →
      dados_exportar df f = selectCols (df_exibicao df) (colunas_tabela df f)) := by
  refine ⟨rfl, rfl, rfl, ?_, ?_, ?_⟩
  · intro hT
    subst hT
    constructor
    · unfold dados_exportar
      rw [if_pos rfl]
    · unfold table_section
      rw [if_pos rfl]
  · intro hT hne
    have hfe : ¬ ((df_filtrado df f).rows.isEmpty = true) := by
      cases h : (df_filtrado df f).rows with
      | nil => exact absurd h hne
      | cons a l => simp
    constructor
    · unfold dados_exportar
      rw [if_neg hT, if_neg hfe]
    · unfold table_section dados_exportar
      rw [if_neg hT, if_neg hfe, if_neg hT, if_neg hfe]
  · intro hT hemp
    have hfe : (df_filtrado df f).rows.isEmpty = true := by
      rw [hemp]
      rfl
    unfold dados_exportar
    rw [if_neg hT, if_pos hfe]

theorem C1_export_amended_witness :
    valid dfA ∧ "REVOGADAS" ∈ filtro_options ∧
    ((export_file dfA "REVOGADAS").dataSheetName = "Dados Filtrados" ∧
      (export_file dfA "REVOGADAS").dadosFiltrados = dados_exportar dfA "REVOGADAS" ∧
      (export_file dfA "REVOGADAS").metricas =
        ⟨dfA.rows.length, "REVOGADAS", (dados_exportar dfA "REVOGADAS").rows.length⟩ ∧
      ("REVOGADAS" = "Todos" →
        dados_exportar dfA "REVOGADAS" = df_exibicao dfA ∧
        table_section dfA "REVOGADAS" = .table (df_exibicao dfA)) ∧
      ("REVOGADAS" ≠ "Todos" → (df_filtrado dfA "REVOGADAS").rows ≠ [] →
        dados_exportar dfA "REVOGADAS" =
          selectCols (df_filtrado dfA "REVOGADAS") (colunas_tabela dfA "REVOGADAS") ∧
        table_section dfA "REVOGADAS" = .table (dados_exportar dfA "REVOGADAS")) ∧
      ("REVOGADAS" ≠ "Todos" → (df_filtrado dfA "REVOGADAS").rows = [] →
        dados_exportar dfA "REVOGADAS" =
          selectCols (df_exibicao dfA) (colunas_tabela dfA "REVOGADAS"))) :=
  ⟨by decide, by decide, C1_export_amended dfA "REVOGADAS" (by decide) (by decide)⟩

/-- C8 counterexample: on a valid table whose REVOGADAS count is zero, with
filter "Todos", the rendered page is exactly a chart of the nonzero
categories, the ENCONTRADAS container and the data table, with no
informational message anywhere: chart and detail of the zero-count category
are skipped silently, not replaced by a message. -/
theorem C8_counterexample :
    valid dfE ∧
    totais_get dfE "REVOGADAS" = 0 ∧
    render dfE "Todos" =
      [.chartAll [("ENCONTRADAS", 1)], .detail "ENCONTRADAS" 1,
       .table (df_exibicao dfE)] ∧
    (render dfE "Todos").all (fun it => !(isMessage it)) = true := by decide

/-- C8 (amended): for every valid table and every category with zero count,
the chart and the detail section of the category are skipped. When it is the
selected filter, they are replaced by informational messages (a warning in the
chart area, an info message in the table area); when the filter is "Todos",
the category is silently absent from the chart slices and its detail section
emits nothing. -/
theorem C8_zero_count_amended (df : DataFrame) (f : String) (hv : valid df)
    (hf : f ∈ detail_order) (h0 : totais_get df f = 0) :
    chart_section df f = .warning "Não há dados para exibir com os filtros atuais." ∧
    table_section df f =
      .info ("Nenhum registro encontrado com dados em \x27" ++ f ++ "\x27") ∧
    detail_section df f f = none ∧
    detail_section df "Todos" f = none ∧
    (∀ q, ¬ (f, q) ∈ (totais df).filter (fun p => 0 < p.2)) ∧
    (∀ slices, chart_section df "Todos" = .chartAll slices →
      slices = (totais df).filter (fun p => 0 < p.2)) := by
  have hne_todos : f ≠ "Todos" := by fin_cases hf <;> decide
  have hcount : count_filled (column df f) = 0 := by
    rw [← totais_get_eq df f hf]
    exact h0
  have htg : ¬ 0 < total_geral df f := by
    unfold total_geral
    rw [if_neg hne_todos, h0]
    omega
  refine ⟨?_, ?_, ?_, ?_, ?_, ?_⟩
  · unfold chart_section
    rw [if_neg htg]
  · have hlen : (df_filtrado df f).rows.length = 0 := by
      rw [df_filtrado_length, hcount]
    have hfe : (df_filtrado df f).rows.isEmpty = true := by
      cases h : (df_filtrado df f).rows with
      | nil => rfl
      | cons a l => rw [h] at hlen; simp at hlen
    unfold table_section
    rw [if_neg hne_todos, if_pos hfe]
  · unfold detail_section
    rw [if_neg]
    rintro ⟨-, hlt⟩
    rw [h0] at hlt
    exact absurd hlt (by omega)
  · unfold detail_section
    rw [if_neg]
    rintro ⟨-, hlt⟩
    rw [h0] at hlt
    exact absurd hlt (by omega)
  · intro q hq
    rw [List.mem_filter] at hq
    obtain ⟨hmem, hpos⟩ := hq
    rw [totais_eq] at hmem
    fin_cases hf <;> simp_all
  · intro slices hch
    unfold chart_section at hch
    split at hch
    · split at hch
      · split at hch
        · exact absurd hch (by simp)
        · exact (RenderItem.chartAll.injEq _ _).mp hch.symm
      · exact absurd rfl (by assumption)
    · exact absurd hch (by simp)

theorem C8_zero_count_amended_witness :
    valid dfE ∧ "REVOGADAS" ∈ detail_order ∧ totais_get dfE "REVOGADAS" = 0 ∧
    (chart_section dfE "REVOGADAS" =
        .warning "Não há dados para exibir com os filtros atuais." ∧
      table_section dfE "REVOGADAS" =
        .info "Nenhum registro encontrado com dados em \x27REVOGADAS\x27" ∧
      detail_section dfE "REVOGADAS" "REVOGADAS" = none ∧
      detail_section dfE "Todos" "REVOGADAS" = none ∧
      (∀ q, ¬ ("REVOGADAS", q) ∈ (totais dfE).filter (fun p => 0 < p.2)) ∧
      (∀ slices, chart_section dfE "Todos" = .chartAll slices →
        slices = (totais dfE).filter (fun p => 0 < p.2))) :=
  ⟨by decide, by decide, by decide,
   C8_zero_count_amended dfE "REVOGADAS" (by decide) (by decide) (by decide)⟩

/-- C10: there is a valid table whose "Total Filtrado" metric for filter
"Todos" strictly exceeds the number of rows in the file: one row filled in
two category columns is counted once by each category. -/
theorem C10_overcount :
    ∃ df : DataFrame, valid df ∧ df.rows.length = 1 ∧
      totais_get df "ENCONTRADAS" = 1 ∧ totais_get df "REVOGADAS" = 1 ∧
      df.rows.length < total_geral df "Todos" :=
  ⟨dfC, by decide⟩
